/-
Verification of the telemetry aggregation service (src/api/index.py and
src/api/telemetry.py) against its natural-language specification.

The two Python modules are shallowly embedded: Python floats are modelled as
exact rationals (ℚ), JSON/CSV values as the inductive `PyVal`, raw records as
association lists, and the route handlers as pure functions from already-loaded
records plus the request fields.  File probing is modelled by a `DataDir`
record holding the (parsed) content of each candidate path, and by boolean
existence predicates for the probe order itself.
-/
import Mathlib

/-- A Python value as it can appear in a parsed JSON document or a CSV row
(CSV cell values are strings; `csv.DictReader`'s missing-cell filler `None`
is modelled by `vNull`). -/
inductive PyVal where
  | vNum (q : ℚ)
  | vStr (s : String)
  | vBool (b : Bool)
  | vNull
  | vList (xs : List PyVal)
  | vDict (kvs : List (String × PyVal))

/-- A raw record: a Python dict (or `DictReader` row) as an association list. -/
abbrev RawRecord := List (String × PyVal)

/-- First-match association-list lookup (a Python dict has unique keys, so this
is exactly `d[k]` when present). -/
def pyLookup : RawRecord → String → Option PyVal
  | [], _ => none
  | (k, v) :: t, key => if k = key then some v else pyLookup t key

/-- Models `d.get(k)`: `None` both when the key is absent and when the stored
value is JSON `null` / Python `None`. -/
def pyGet (r : RawRecord) (k : String) : Option PyVal :=
  match pyLookup r k with
  | some PyVal.vNull => none
  | o => o

/-- Models `d.get(k, default)`: the stored value (even `null`) when the key is
present, the default otherwise. -/
def pyGetD (r : RawRecord) (k : String) (d : PyVal) : PyVal :=
  match pyLookup r k with
  | some v => v
  | none => d

/-- Python truthiness of a value. -/
def truthy : PyVal → Bool
  | PyVal.vNum q => decide (q ≠ 0)
  | PyVal.vStr s => !s.isEmpty
  | PyVal.vBool b => b
  | PyVal.vNull => false
  | PyVal.vList xs => !xs.isEmpty
  | PyVal.vDict kvs => !kvs.isEmpty

/-- Truthiness of a `d.get(...)` result (`None` is falsy). -/
def truthyO : Option PyVal → Bool
  | none => false
  | some v => truthy v

/-- Models the Python `or` operator on two `get` results: the left operand when
it is truthy, otherwise the right operand (even when that one is falsy). -/
def pyOr (a b : Option PyVal) : Option PyVal :=
  if truthyO a then a else b

/-- Models Python `str.strip()` (whitespace at both ends removed); defined
structurally over the character list. -/
def pyStrip (s : String) : String :=
  ⟨((s.data.dropWhile Char.isWhitespace).reverse.dropWhile Char.isWhitespace).reverse⟩

/-- Models Python `str.lower()` (ASCII lower-casing). -/
def pyLower (s : String) : String :=
  ⟨s.data.map Char.toLower⟩

/-- Digit-string value (helper for `parseFloat?`). -/
def digitsVal (cs : List Char) : ℕ :=
  cs.foldl (fun a c => a * 10 + (c.toNat - 48)) 0

/-- Models `float(s)` on a string: strip whitespace, optional sign, decimal
digits with an optional fractional part.  (Scientific notation and the
`inf`/`nan` spellings accepted by Python are outside the model; no claim
depends on them.) -/
def parseFloat? (s : String) : Option ℚ :=
  let cs := (pyStrip s).toList
  let sg : ℚ × List Char :=
    match cs with
    | '-' :: t => (-1, t)
    | '+' :: t => (1, t)
    | t => (1, t)
  let ip := sg.2.takeWhile (fun c => c ≠ '.')
  let fp := sg.2.dropWhile (fun c => c ≠ '.')
  if fp.isEmpty then
    if ip.isEmpty || !ip.all Char.isDigit then none
    else some (sg.1 * (digitsVal ip : ℚ))
  else
    let frac := fp.tail
    if (ip.isEmpty && frac.isEmpty) || !ip.all Char.isDigit || !frac.all Char.isDigit then
      none
    else
      some (sg.1 * ((digitsVal ip : ℚ) + (digitsVal frac : ℚ) / 10 ^ frac.length))

/-- Models `float(x)`: numbers pass through, booleans become 0/1, strings are
parsed, everything else (`None`, lists, dicts) raises `TypeError`, modelled as
`none`. -/
def pyFloat : PyVal → Option ℚ
  | PyVal.vNum q => some q
  | PyVal.vBool b => some (if b then 1 else 0)
  | PyVal.vStr s => parseFloat? s
  | PyVal.vNull => none
  | PyVal.vList _ => none
  | PyVal.vDict _ => none

/-- Models `str(x)` as applied to a resolved region value.  Exact for strings,
booleans and `None`; the textual repr of numbers is simplified (integers print
as in Python, non-integers as a fraction), which no claim exercises. -/
def pyStr : PyVal → String
  | PyVal.vStr s => s
  | PyVal.vBool b => if b then "True" else "False"
  | PyVal.vNull => "None"
  | PyVal.vNum q => if q.den = 1 then toString q.num else toString q.num ++ "/" ++ toString q.den
  | PyVal.vList _ => "[]"
  | PyVal.vDict _ => "\x7b\x7d"

/-- A normalized telemetry record (§3 of the spec). -/
structure NormalizedRecord where
  region : String
  latency_ms : ℚ
  uptime : ℚ
deriving DecidableEq, Repr

/-- Shared tail of every record-parsing block: the `None` checks followed by
the `try: records.append({...}) except: continue` body. -/
def mkRecord? (rv lv uv : Option PyVal) : Option NormalizedRecord :=
  match rv, lv, uv with
  | some rv, some lv, some uv =>
    match pyFloat lv, pyFloat uv with
    | some l, some u => some ⟨pyLower (pyStrip (pyStr rv)), l, u⟩
    | _, _ => none
  | _, _, _ => none

/-- index.py:114 — `r.get("region") or r.get("Region")`. -/
def resolveRegionIdxJson (r : RawRecord) : Option PyVal :=
  pyOr (pyGet r "region") (pyGet r "Region")

/-- index.py:115-120 — the latency alias chain of the JSON path. -/
def resolveLatencyIdxJson (r : RawRecord) : Option PyVal :=
  pyOr (pyOr (pyOr (pyGet r "latency_ms") (pyGet r "latency")) (pyGet r "latencyMs"))
    (pyGet r "Latency")

/-- index.py:121-126 — the uptime alias chain of the JSON path. -/
def resolveUptimeIdxJson (r : RawRecord) : Option PyVal :=
  pyOr (pyOr (pyOr (pyGet r "uptime") (pyGet r "uptime_pct")) (pyGet r "uptimePercent"))
    (pyGet r "Uptime")

/-- index.py:109-140 — one JSON record of the list is resolved and parsed,
yielding `none` whenever the Python loop executes `continue`. -/
def parseRecordIdxJson (r : RawRecord) : Option NormalizedRecord :=
  mkRecord? (resolveRegionIdxJson r) (resolveLatencyIdxJson r) (resolveUptimeIdxJson r)

/-- index.py:149 — region chain of the CSV path (same aliases). -/
def resolveRegionIdxCsv (r : RawRecord) : Option PyVal :=
  pyOr (pyGet r "region") (pyGet r "Region")

/-- index.py:150-155 — latency chain of the CSV path. -/
def resolveLatencyIdxCsv (r : RawRecord) : Option PyVal :=
  pyOr (pyOr (pyOr (pyGet r "latency_ms") (pyGet r "latency")) (pyGet r "latencyMs"))
    (pyGet r "Latency")

/-- index.py:156-161 — uptime chain of the CSV path. -/
def resolveUptimeIdxCsv (r : RawRecord) : Option PyVal :=
  pyOr (pyOr (pyOr (pyGet r "uptime") (pyGet r "uptime_pct")) (pyGet r "uptimePercent"))
    (pyGet r "Uptime")

/-- index.py:148-175 — one CSV row parsed to a normalized record. -/
def parseRecordIdxCsv (r : RawRecord) : Option NormalizedRecord :=
  mkRecord? (resolveRegionIdxCsv r) (resolveLatencyIdxCsv r) (resolveUptimeIdxCsv r)

/-- telemetry.py:61-73 — alias chains of its CSV path (full lists). -/
def resolveLatencyTmCsv (r : RawRecord) : Option PyVal :=
  pyOr (pyOr (pyOr (pyGet r "latency_ms") (pyGet r "latency")) (pyGet r "latencyMs"))
    (pyGet r "Latency")

/-- telemetry.py:68-73 — uptime chain of its CSV path. -/
def resolveUptimeTmCsv (r : RawRecord) : Option PyVal :=
  pyOr (pyOr (pyOr (pyGet r "uptime") (pyGet r "uptime_pct")) (pyGet r "uptimePercent"))
    (pyGet r "Uptime")

/-- telemetry.py:60-87 — one CSV row parsed to a normalized record. -/
def parseRecordTmCsv (r : RawRecord) : Option NormalizedRecord :=
  mkRecord? (pyOr (pyGet r "region") (pyGet r "Region")) (resolveLatencyTmCsv r)
    (resolveUptimeTmCsv r)

/-- telemetry.py:101 — the JSON path's latency chain, which stops at
`latencyMs` (no `Latency` alias). -/
def resolveLatencyTmJson (r : RawRecord) : Option PyVal :=
  pyOr (pyOr (pyGet r "latency_ms") (pyGet r "latency")) (pyGet r "latencyMs")

/-- telemetry.py:102 — the JSON path's uptime chain, which stops at
`uptimePercent` (no `Uptime` alias). -/
def resolveUptimeTmJson (r : RawRecord) : Option PyVal :=
  pyOr (pyOr (pyGet r "uptime") (pyGet r "uptime_pct")) (pyGet r "uptimePercent")

/-- telemetry.py:99-116 — one JSON record parsed to a normalized record. -/
def parseRecordTmJson (r : RawRecord) : Option NormalizedRecord :=
  mkRecord? (pyOr (pyGet r "region") (pyGet r "Region")) (resolveLatencyTmJson r)
    (resolveUptimeTmJson r)

/-- index.py:110-112 — JSON rows that are not objects are skipped by the
`isinstance(r, dict)` guard before field resolution. -/
def jsonRowParse (v : PyVal) : Option NormalizedRecord :=
  match v with
  | PyVal.vDict kvs => parseRecordIdxJson kvs
  | _ => none

/-- index.py:109-142 — the JSON row loop. -/
def load_records_rows (rows : List PyVal) : List NormalizedRecord :=
  rows.filterMap jsonRowParse

/-- index.py:145-177 — the CSV row loop. -/
def load_records_csvRows (rows : List RawRecord) : List NormalizedRecord :=
  rows.filterMap parseRecordIdxCsv

/-- telemetry.py:58-87 — its CSV row loop. -/
def load_records_csvRowsTm (rows : List RawRecord) : List NormalizedRecord :=
  rows.filterMap parseRecordTmCsv

/-- telemetry.py:99-116 — its JSON row loop.  (In the source a non-mapping row
raises an uncaught `AttributeError`; that failure mode is outside the modelled
error taxonomy and outside every claim, so non-dict rows are mapped to `none`
here.) -/
def jsonRowParseTm (v : PyVal) : Option NormalizedRecord :=
  match v with
  | PyVal.vDict kvs => parseRecordTmJson kvs
  | _ => none

/-- telemetry.py:99-118 — the JSON row loop of telemetry.py. -/
def load_records_rowsTm (rows : List PyVal) : List NormalizedRecord :=
  rows.filterMap jsonRowParseTm

/-- index.py:36-37 / telemetry.py:26-27 — arithmetic mean, 0.0 on empty input
(the two modules' `mean` helpers are identical). -/
def mean (vals : List ℚ) : ℚ :=
  if vals.isEmpty then 0 else vals.sum / (vals.length : ℚ)

/-- index.py:40-63 — interpolated 95th percentile. -/
def p95 (vals : List ℚ) : ℚ :=
  if vals.isEmpty then 0
  else
    let s := vals.insertionSort (· ≤ ·)
    let n := s.length
    if n = 1 then s.headI
    else
      let pos : ℚ := ((n - 1 : ℕ) : ℚ) * (95 / 100)
      let lo : ℤ := ⌊pos⌋
      let hi0 : ℤ := ⌈pos⌉
      let hi : ℤ := if (n : ℤ) ≤ hi0 then (n : ℤ) - 1 else hi0
      let frac : ℚ := pos - (lo : ℚ)
      s.getD lo.toNat 0 + (s.getD hi.toNat 0 - s.getD lo.toNat 0) * frac

/-- telemetry.py:30-38 — nearest-rank 95th percentile. -/
def percentile_95 (values : List ℚ) : ℚ :=
  if values.isEmpty then 0
  else
    let vals := values.insertionSort (· ≤ ·)
    let n := vals.length
    let rank : ℤ := ⌈(95 / 100 : ℚ) * (n : ℚ)⌉
    let idx : ℤ := max 0 (min ((n : ℤ) - 1) (rank - 1))
    vals.getD idx.toNat 0

/-- Modelled from the spec: the interpolated-percentile formula exactly as
§4.2 words it (sort ascending; `n == 1` returns `s[0]`; otherwise
`pos = (n-1)*0.95`, `lo = floor(pos)`, `hi = min(n-1, ceil(pos))`,
`frac = pos - lo`, result `s[lo] + (s[hi]-s[lo])*frac`), to be compared
with the source's `p95`. -/
def p95_spec (vals : List ℚ) : ℚ :=
  let s := vals.insertionSort (· ≤ ·)
  let n := s.length
  if n = 1 then s.headI
  else
    let pos : ℚ := ((n - 1 : ℕ) : ℚ) * (95 / 100)
    let lo : ℤ := ⌊pos⌋
    let hi : ℤ := min ((n : ℤ) - 1) ⌈pos⌉
    let frac : ℚ := pos - (lo : ℚ)
    s.getD lo.toNat 0 + (s.getD hi.toNat 0 - s.getD lo.toNat 0) * frac

/-- Python's banker's rounding to an integer (`round` ties go to even). -/
def pyRoundInt (q : ℚ) : ℤ :=
  if q - ⌊q⌋ < 1 / 2 then ⌊q⌋
  else if 1 / 2 < q - ⌊q⌋ then ⌊q⌋ + 1
  else if ⌊q⌋ % 2 = 0 then ⌊q⌋ else ⌊q⌋ + 1

/-- `round(q, nd)` over exact rationals (the Python source rounds binary
doubles; the idealization to exact decimal rounding is the only divergence). -/
def roundTo (nd : ℕ) (q : ℚ) : ℚ :=
  (pyRoundInt (q * 10 ^ nd) : ℚ) / 10 ^ nd

/-- The three spec-named failure kinds (§7). -/
inductive ApiError where
  | emptyRegionSet
  | dataSourceNotFound
  | unsupportedFormat
deriving DecidableEq, Repr

/-- The HTTP status each failure is raised with (index.py:94,107,200 and
telemetry.py:97,122,137): 400 for the empty region set, 500 for the two
data-source failures. -/
def statusCode : ApiError → ℕ
  | ApiError.emptyRegionSet => 400
  | ApiError.dataSourceNotFound => 500
  | ApiError.unsupportedFormat => 500

/-- One region's summary object. -/
structure Summary where
  avg_latency : ℚ
  p95_latency : ℚ
  avg_uptime : ℚ
  breaches : ℕ
deriving DecidableEq, Repr

/-- index.py:205-226 — the per-region body of the `telemetry` handler:
filter the records of one region, zero summary when none match, otherwise
the four rounded statistics (latency stats rounded to 2 decimals, uptime to
6, breaches counted with strict `>`). -/
def regionSummary (records : List NormalizedRecord) (threshold : ℚ) (region : String) :
    Summary :=
  let rows := records.filter (fun r => r.region = region)
  if rows.isEmpty then ⟨0, 0, 0, 0⟩
  else
    let latencies := rows.map (fun r => r.latency_ms)
    let uptimes := rows.map (fun r => r.uptime)
    let breaches := (rows.filter (fun r => threshold < r.latency_ms)).length
    ⟨roundTo 2 (mean latencies), roundTo 2 (p95 latencies), roundTo 6 (mean uptimes),
      breaches⟩

/-- telemetry.py:141-168 — the per-region result of `telemetry_metrics`: the
single grouping pass assigns each requested region exactly the records whose
normalized region equals it, so the region's summary is a function of that
filtered list: zero summary when empty, otherwise mean/nearest-rank-p95
rounded to 3 decimals and mean uptime to 6. -/
def regionSummaryTm (records : List NormalizedRecord) (threshold : ℚ) (region : String) :
    Summary :=
  let rows := records.filter (fun r => r.region = region)
  if rows.isEmpty then ⟨0, 0, 0, 0⟩
  else
    let latencies := rows.map (fun r => r.latency_ms)
    let uptimes := rows.map (fun r => r.uptime)
    let breaches := (rows.filter (fun r => threshold < r.latency_ms)).length
    ⟨roundTo 3 (mean latencies), roundTo 3 (percentile_95 latencies),
      roundTo 6 (mean uptimes), breaches⟩

/-- index.py:198 / telemetry.py:135 (textually identical comprehensions) —
trim each requested region, drop the ones that trim to empty, lower-case the
rest. -/
def normalizeRegions (regions : List String) : List String :=
  regions.filterMap
    (fun x => if pyStrip x = "" then none else some (pyLower (pyStrip x)))

/-- index.py:194-229 — the `telemetry` handler after `load_records()`:
normalize and deduplicate the requested regions, 400 when none remain,
otherwise one summary per distinct region. -/
def telemetry (records : List NormalizedRecord) (regions : List String) (threshold : ℚ) :
    Except ApiError (List (String × Summary)) :=
  let requested := normalizeRegions regions
  if requested.isEmpty then Except.error ApiError.emptyRegionSet
  else Except.ok (requested.dedup.map (fun g => (g, regionSummary records threshold g)))

/-- telemetry.py:131-170 — the `telemetry_metrics` handler after
`_load_records()`; the grouped/backfilled dict it builds holds, for every
distinct requested region, exactly that region's summary. -/
def telemetry_metrics (records : List NormalizedRecord) (regions : List String)
    (threshold : ℚ) : Except ApiError (List (String × Summary)) :=
  let requested := normalizeRegions regions
  if requested.isEmpty then Except.error ApiError.emptyRegionSet
  else Except.ok (requested.dedup.map (fun g => (g, regionSummaryTm records threshold g)))

/-- The data directory: the parsed content of each candidate file, `none`
when the file does not exist. -/
structure DataDir where
  qVercelJson : Option PyVal
  telemetryJson : Option PyVal
  telemetryCsv : Option (List RawRecord)

/-- index.py:100-107 — `payload.get("records", payload) if isinstance(payload,
dict) else payload`. -/
def jsonRows (payload : PyVal) : PyVal :=
  match payload with
  | PyVal.vDict kvs => pyGetD kvs "records" payload
  | p => p

/-- index.py:97-142 — parse a JSON snapshot: reject any shape whose extracted
rows are not a list, otherwise run the row loop. -/
def jsonLoad (payload : PyVal) : Except ApiError (List NormalizedRecord) :=
  match jsonRows payload with
  | PyVal.vList rows => Except.ok (load_records_rows rows)
  | _ => Except.error ApiError.unsupportedFormat

/-- telemetry.py:93-118 — same shape check, then telemetry.py's row loop. -/
def jsonLoadTm (payload : PyVal) : Except ApiError (List NormalizedRecord) :=
  match jsonRows payload with
  | PyVal.vList rows => Except.ok (load_records_rowsTm rows)
  | _ => Except.error ApiError.unsupportedFormat

/-- index.py:80-177 — `load_records`: probe `q-vercel-latency.json`,
`telemetry.json`, `telemetry.csv` in that order, 500 `DataSourceNotFound`
when none exists, parse the first that does. -/
def load_records (d : DataDir) : Except ApiError (List NormalizedRecord) :=
  match d.qVercelJson with
  | some payload => jsonLoad payload
  | none =>
    match d.telemetryJson with
    | some payload => jsonLoad payload
    | none =>
      match d.telemetryCsv with
      | some rows => Except.ok (load_records_csvRows rows)
      | none => Except.error ApiError.dataSourceNotFound

/-- telemetry.py:41-123 — `_load_records`: probe `telemetry.csv` first, then
`telemetry.json`, failing with `DataSourceNotFound` when neither exists. -/
def load_records_tm (d : DataDir) : Except ApiError (List NormalizedRecord) :=
  match d.telemetryCsv with
  | some rows => Except.ok (load_records_csvRowsTm rows)
  | none =>
    match d.telemetryJson with
    | some payload => jsonLoadTm payload
    | none => Except.error ApiError.dataSourceNotFound

/-- index.py:81-91 — the probe loop over candidate paths, abstracted over
`os.path.exists`. -/
def idxCandidates : List String :=
  ["data/q-vercel-latency.json", "data/telemetry.json", "data/telemetry.csv"]

/-- index.py:87-91 — first existing candidate wins. -/
def pickPath (exists_ : String → Bool) : Option String :=
  idxCandidates.find? exists_

/-- telemetry.py:52-53 — its two candidate paths. -/
def tmCsvPath : String := "data/telemetry.csv"

/-- telemetry.py:53 — the JSON candidate path. -/
def tmJsonPath : String := "data/telemetry.json"

/-- telemetry.py:57,91,120 — `os.path.exists(csv_path)` is consulted first,
then `os.path.exists(json_path)`. -/
def pickPathTm (exists_ : String → Bool) : Option String :=
  if exists_ tmCsvPath then some tmCsvPath
  else if exists_ tmJsonPath then some tmJsonPath
  else none

/-- Modelled from the spec: "a JSON snapshot's top-level shape is neither a
list of objects nor an object exposing a `records` list" (§4.1/§7), as the
shape predicate to compare with the source's `jsonLoad` rejection. -/
def jsonListShape (payload : PyVal) : Prop :=
  (∃ l, payload = PyVal.vList l) ∨
    (∃ kvs l, payload = PyVal.vDict kvs ∧ pyLookup kvs "records" = some (PyVal.vList l))

/-- The conditions of claim C4 under which a raw record is malformed: some
logical field resolves to no value, or a resolved latency/uptime does not
parse as a number. -/
def fieldFail (r : RawRecord) : Prop :=
  resolveRegionIdxJson r = none ∨ resolveLatencyIdxJson r = none ∨
    resolveUptimeIdxJson r = none ∨
    (∃ v, resolveLatencyIdxJson r = some v ∧ pyFloat v = none) ∨
    (∃ v, resolveUptimeIdxJson r = some v ∧ pyFloat v = none)

/-- The conditions of claim C4 for telemetry.py's JSON row loop, stated over
that loop's own (shorter) alias chains: some logical field resolves to no
value there, or a resolved latency/uptime does not parse as a number. -/
def fieldFailTm (r : RawRecord) : Prop :=
  pyOr (pyGet r "region") (pyGet r "Region") = none ∨ resolveLatencyTmJson r = none ∨
    resolveUptimeTmJson r = none ∨
    (∃ v, resolveLatencyTmJson r = some v ∧ pyFloat v = none) ∨
    (∃ v, resolveUptimeTmJson r = some v ∧ pyFloat v = none)

/-- Counterexample fixture for C5: a raw record whose only latency alias is
the capitalized `Latency`. -/
def aliasOnlyLatency : RawRecord :=
  [("region", PyVal.vStr "a"), ("Latency", PyVal.vNum 5), ("uptime", PyVal.vNum 1)]

/-- Counterexample fixture for C10: a raw record whose `latency_ms` is 0 and
whose last latency alias `Latency` also holds 0. -/
def zeroLatRecord : RawRecord :=
  [("region", PyVal.vStr "a"), ("latency_ms", PyVal.vNum 0),
    ("Latency", PyVal.vNum 0), ("uptime", PyVal.vNum 1)]

/-- Counterexample fixture for C1/C2: three records in one region. -/
def threeLatRecords : List NormalizedRecord :=
  [⟨"a", 100, 1⟩, ⟨"a", 200, 1⟩, ⟨"a", 301, 1⟩]

/-- Counterexample fixture for C1: latencies 100, 200, 300 in one region. -/
def threeLatRecords300 : List NormalizedRecord :=
  [⟨"a", 100, 1⟩, ⟨"a", 200, 1⟩, ⟨"a", 300, 1⟩]

lemma headI_eq_getD {s : List ℚ} (h : s ≠ []) : s.headI = s.getD 0 0 := by
  cases s with
  | nil => exact absurd rfl h
  | cons a t => rfl

lemma sorted_getD_le_getD {s : List ℚ} (hs : List.Sorted (· ≤ ·) s) {i j : ℕ}
    (hij : i ≤ j) (hj : j < s.length) : s.getD i 0 ≤ s.getD j 0 := by
  have hi : i < s.length := lt_of_le_of_lt hij hj
  rw [List.getD_eq_getElem s 0 hi, List.getD_eq_getElem s 0 hj]
  exact hs.rel_get_of_le hij

lemma getD_mem {s : List ℚ} {i : ℕ} (hi : i < s.length) : s.getD i 0 ∈ s := by
  rw [List.getD_eq_getElem s 0 hi]
  exact s.getElem_mem hi

lemma interp_between {a b f : ℚ} (hab : a ≤ b) (hf0 : 0 ≤ f) (hf1 : f ≤ 1) :
    a ≤ a + (b - a) * f ∧ a + (b - a) * f ≤ b := by
  constructor
  · nlinarith
  · nlinarith

lemma lookup_map_self (l : List String) (f : String → Summary) (g : String)
    (hg : g ∈ l) : (l.map (fun x => (x, f x))).lookup g = some (f g) := by
  induction l with
  | nil => cases hg
  | cons a t ih =>
    by_cases h : g = a
    · subst h
      simp [List.lookup]
    · have hb : (g == a) = false := beq_false_of_ne h
      have hg' : g ∈ t := by
        rcases List.mem_cons.mp hg with h1 | h1
        · exact absurd h1 h
        · exact h1
      simpa [List.lookup, hb] using ih hg'

lemma filterMap_middle_none {α β : Type} (f : α → Option β) (a : α) (h : f a = none)
    (l1 l2 : List α) : (l1 ++ a :: l2).filterMap f = (l1 ++ l2).filterMap f := by
  simp [List.filterMap_append, List.filterMap_cons, h]

lemma mem_filterMap_middle {α β : Type} (f : α → Option β) (a x : α) {b : β}
    (l1 l2 : List α) (hx : x ∈ l1 ++ l2) (hb : f x = some b) :
    b ∈ (l1 ++ a :: l2).filterMap f := by
  apply List.mem_filterMap.mpr
  refine ⟨x, ?_, hb⟩
  rcases List.mem_append.mp hx with h1 | h1
  · exact List.mem_append.mpr (Or.inl h1)
  · exact List.mem_append.mpr (Or.inr (List.mem_cons_of_mem _ h1))

lemma mkRecord?_eq_none_iff (rv lv uv : Option PyVal) :
    mkRecord? rv lv uv = none ↔
      rv = none ∨ lv = none ∨ uv = none ∨
        (∃ v, lv = some v ∧ pyFloat v = none) ∨
        (∃ v, uv = some v ∧ pyFloat v = none) := by
  rcases rv with _ | a <;> rcases lv with _ | b <;> rcases uv with _ | c <;>
    simp [mkRecord?]
  rcases hb : pyFloat b with _ | fb <;> rcases hc : pyFloat c with _ | fc <;> simp

lemma fieldFail_iff (r : RawRecord) : fieldFail r ↔ parseRecordIdxJson r = none := by
  rw [fieldFail, parseRecordIdxJson, mkRecord?_eq_none_iff]

lemma fieldFailTm_iff (r : RawRecord) : fieldFailTm r ↔ parseRecordTmJson r = none := by
  rw [fieldFailTm, parseRecordTmJson, mkRecord?_eq_none_iff]

lemma jsonRows_vList_iff (payload : PyVal) :
    (∃ l, jsonRows payload = PyVal.vList l) ↔ jsonListShape payload := by
  cases payload with
  | vList l => simp [jsonRows, jsonListShape]
  | vDict kvs =>
    rcases h : pyLookup kvs "records" with _ | v
    · simp [jsonRows, jsonListShape, pyGetD, h]
    · cases v <;> simp [jsonRows, jsonListShape, pyGetD, h]
  | vNum q => simp [jsonRows, jsonListShape]
  | vStr s => simp [jsonRows, jsonListShape]
  | vBool b => simp [jsonRows, jsonListShape]
  | vNull => simp [jsonRows, jsonListShape]

lemma jsonLoad_classify (payload : PyVal) :
    (jsonLoad payload = Except.error ApiError.unsupportedFormat ↔ ¬ jsonListShape payload) ∧
      jsonLoad payload ≠ Except.error ApiError.dataSourceNotFound ∧
      (jsonLoadTm payload = Except.error ApiError.unsupportedFormat ↔
        ¬ jsonListShape payload) ∧
      jsonLoadTm payload ≠ Except.error ApiError.dataSourceNotFound := by
  rw [← jsonRows_vList_iff]
  rcases h : jsonRows payload with q | s | b | _ | l | kvs <;>
    simp [jsonLoad, jsonLoadTm, h]

lemma normalizeRegions_isEmpty_iff (regions : List String) :
    (normalizeRegions regions).isEmpty = true ↔ normalizeRegions regions = [] := by
  cases h : normalizeRegions regions <;> simp [h]

/-- C8: both handlers normalize the requested regions by trimming,
lower-casing and discarding entries that trim to empty, and fail with the
`EmptyRegionSet` kind (HTTP 400, distinguishable from the 500-kind server
failures) exactly when the normalized list is empty; in particular a request
whose regions are all whitespace fails this way. -/
theorem spec_C8 (records : List NormalizedRecord) (regions : List String) (t : ℚ) :
    ((telemetry records regions t = Except.error ApiError.emptyRegionSet) ↔
      normalizeRegions regions = []) ∧
    ((telemetry_metrics records regions t = Except.error ApiError.emptyRegionSet) ↔
      normalizeRegions regions = []) ∧
    ((∀ x ∈ regions, pyStrip x = "") →
      telemetry records regions t = Except.error ApiError.emptyRegionSet) ∧
    statusCode ApiError.emptyRegionSet = 400 ∧
    statusCode ApiError.dataSourceNotFound = 500 ∧
    statusCode ApiError.unsupportedFormat = 500 := by
  have hmain : ∀ (out : List NormalizedRecord → ℚ → String → Summary),
      ((if (normalizeRegions regions).isEmpty then
          (Except.error ApiError.emptyRegionSet :
            Except ApiError (List (String × Summary)))
        else Except.ok ((normalizeRegions regions).dedup.map
          (fun g => (g, out records t g)))) = Except.error ApiError.emptyRegionSet ↔
        normalizeRegions regions = []) := by
    intro out
    by_cases h : (normalizeRegions regions).isEmpty
    · simp [h, (normalizeRegions_isEmpty_iff regions).mp h]
    · have : ¬ normalizeRegions regions = [] := fun he =>
        h ((normalizeRegions_isEmpty_iff regions).mpr he)
      simp [h, this]
  refine ⟨hmain regionSummary, hmain regionSummaryTm, ?_, rfl, rfl, rfl⟩
  intro hall
  have hnil : normalizeRegions regions = [] := by
    rw [normalizeRegions]
    rw [List.filterMap_eq_nil_iff]
    intro a ha
    simp [hall a ha]
  exact (hmain regionSummary).mpr hnil

/-- C8 witness: a request whose regions are only whitespace strings fails with
`EmptyRegionSet`. -/
theorem spec_C8_witness :
    telemetry [] [" ", ""] 0 = Except.error ApiError.emptyRegionSet :=
  (spec_C8 [] [" ", ""] 0).2.2.1 (by decide)

/-- C3: whenever the handlers succeed, every region of the normalized
requested list appears as a key of the result, and a requested region with no
matching records maps to the all-zero summary rather than being omitted. -/
theorem spec_C3 (records : List NormalizedRecord) (regions : List String) (t : ℚ)
    (out outTm : List (String × Summary))
    (h1 : telemetry records regions t = Except.ok out)
    (h2 : telemetry_metrics records regions t = Except.ok outTm)
    (g : String) (hg : g ∈ normalizeRegions regions) :
    out.lookup g = some (regionSummary records t g) ∧
    outTm.lookup g = some (regionSummaryTm records t g) ∧
    (records.filter (fun r => r.region = g) = [] →
      out.lookup g = some ⟨0, 0, 0, 0⟩ ∧ outTm.lookup g = some ⟨0, 0, 0, 0⟩) := by
  have hne : (normalizeRegions regions).isEmpty = false := by
    cases h : (normalizeRegions regions).isEmpty
    · rfl
    · rw [(normalizeRegions_isEmpty_iff regions).mp h] at hg
      cases hg
  rw [telemetry, hne] at h1
  rw [telemetry_metrics, hne] at h2
  simp only [Bool.false_eq_true, if_false, Except.ok.injEq] at h1 h2
  have hdg : g ∈ (normalizeRegions regions).dedup := List.mem_dedup.mpr hg
  have ho : out.lookup g = some (regionSummary records t g) := by
    rw [← h1]; exact lookup_map_self _ _ _ hdg
  have hoTm : outTm.lookup g = some (regionSummaryTm records t g) := by
    rw [← h2]; exact lookup_map_self _ _ _ hdg
  refine ⟨ho, hoTm, fun hempty => ?_⟩
  have hz : regionSummary records t g = ⟨0, 0, 0, 0⟩ := by
    rw [regionSummary, hempty]
    rfl
  have hzTm : regionSummaryTm records t g = ⟨0, 0, 0, 0⟩ := by
    rw [regionSummaryTm, hempty]
    rfl
  rw [hz] at ho
  rw [hzTm] at hoTm
  exact ⟨ho, hoTm⟩

/-- C3 witness: requesting a region absent from the data yields the all-zero
summary under that key in both handlers. -/
theorem spec_C3_witness :
    ∃ out outTm : List (String × Summary),
      telemetry [⟨"us-east", 100, 1⟩] ["eu-west"] 0 = Except.ok out ∧
      telemetry_metrics [⟨"us-east", 100, 1⟩] ["eu-west"] 0 = Except.ok outTm ∧
      out.lookup "eu-west" = some ⟨0, 0, 0, 0⟩ ∧
      outTm.lookup "eu-west" = some ⟨0, 0, 0, 0⟩ := by
  have h := spec_C3 [⟨"us-east", 100, 1⟩] ["eu-west"] 0 _ _ rfl rfl "eu-west" (by decide)
  exact ⟨_, _, rfl, rfl, (h.2.2 (by decide)).1, (h.2.2 (by decide)).2⟩

/-- C6 counterexample: when both of telemetry.py's candidate files exist, its
loader picks the CSV, not the JSON — the CSV is probed first, contradicting
the claimed JSON-names-first, CSV-fallback-last priority order. -/
theorem spec_C6_counterexample :
    pickPathTm (fun p => p == tmCsvPath || p == tmJsonPath) = some tmCsvPath ∧
    tmCsvPath ≠ tmJsonPath := by
  constructor
  · rfl
  · decide

/-- C6 (amended): each loader probes its own fixed candidate list and the
first existing candidate deterministically wins, but the two lists differ:
index.py probes `q-vercel-latency.json`, then `telemetry.json`, then
`telemetry.csv`, while telemetry.py probes `telemetry.csv` first and
`telemetry.json` second. -/
theorem spec_C6_amended (exists_ : String → Bool) :
    pickPath exists_ =
      (if exists_ "data/q-vercel-latency.json" then some "data/q-vercel-latency.json"
       else if exists_ "data/telemetry.json" then some "data/telemetry.json"
       else if exists_ "data/telemetry.csv" then some "data/telemetry.csv"
       else none) ∧
    pickPathTm exists_ =
      (if exists_ tmCsvPath then some tmCsvPath
       else if exists_ tmJsonPath then some tmJsonPath
       else none) := by
  constructor
  · cases h1 : exists_ "data/q-vercel-latency.json" <;>
      cases h2 : exists_ "data/telemetry.json" <;>
      cases h3 : exists_ "data/telemetry.csv" <;>
      simp [pickPath, idxCandidates, List.find?, h1, h2, h3]
  · rfl

/-- C6 witness: with no candidate existing, both probes come up empty. -/
theorem spec_C6_witness :
    pickPath (fun _ => false) = none ∧ pickPathTm (fun _ => false) = none := by
  have h := spec_C6_amended (fun _ => false)
  simpa using h

/-- C7: each loader fails with `DataSourceNotFound` exactly when none of its
candidate files exists, and with `UnsupportedFormat` exactly when the selected
snapshot is a JSON document whose top-level shape is neither a list nor an
object whose `records` member is a list; the error-typed result carries no
partial record sequence. -/
theorem spec_C7 (d : DataDir) :
    (load_records d = Except.error ApiError.dataSourceNotFound ↔
      d.qVercelJson = none ∧ d.telemetryJson = none ∧ d.telemetryCsv = none) ∧
    (load_records d = Except.error ApiError.unsupportedFormat ↔
      (∃ p, d.qVercelJson = some p ∧ ¬ jsonListShape p) ∨
        (d.qVercelJson = none ∧ ∃ p, d.telemetryJson = some p ∧ ¬ jsonListShape p)) ∧
    (load_records_tm d = Except.error ApiError.dataSourceNotFound ↔
      d.telemetryCsv = none ∧ d.telemetryJson = none) ∧
    (load_records_tm d = Except.error ApiError.unsupportedFormat ↔
      d.telemetryCsv = none ∧ ∃ p, d.telemetryJson = some p ∧ ¬ jsonListShape p) := by
  obtain ⟨q, j, c⟩ := d
  rcases q with _ | qp <;> rcases j with _ | jp <;> rcases c with _ | cr <;>
    simp [load_records, load_records_tm, jsonLoad_classify]

/-- C7 witness: with no candidate file present, both loaders fail with
`DataSourceNotFound`. -/
theorem spec_C7_witness :
    load_records ⟨none, none, none⟩ = Except.error ApiError.dataSourceNotFound ∧
    load_records_tm ⟨none, none, none⟩ = Except.error ApiError.dataSourceNotFound := by
  have h := spec_C7 ⟨none, none, none⟩
  exact ⟨h.1.mpr ⟨rfl, rfl, rfl⟩, h.2.2.1.mpr ⟨rfl, rfl⟩⟩

/-- C5 counterexample: the very same raw record (region `a`, `Latency` 5,
uptime 1) is accepted by telemetry.py's CSV path but dropped by its JSON
path, because the JSON path's alias chains omit `Latency` (and `Uptime`) —
so the alias resolution is not applied identically to JSON records and CSV
rows. -/
theorem spec_C5_counterexample :
    parseRecordTmCsv aliasOnlyLatency = some ⟨"a", 5, 1⟩ ∧
    parseRecordTmJson aliasOnlyLatency = none := by
  constructor
  · decide
  · decide

/-- C5 (amended): index.py resolves fields through the full alias lists and
does so identically in its JSON and CSV paths (and telemetry.py's CSV path
matches them), but telemetry.py's JSON path omits the `Latency` and `Uptime`
aliases: when the other latency (resp. uptime) aliases yield no value it
resolves to `None` regardless of those keys. -/
theorem spec_C5_amended (r : RawRecord) :
    parseRecordIdxJson r = parseRecordIdxCsv r ∧
    parseRecordIdxCsv r = parseRecordTmCsv r ∧
    (pyGet r "latency_ms" = none → pyGet r "latency" = none →
      pyGet r "latencyMs" = none → resolveLatencyTmJson r = none) ∧
    (pyGet r "uptime" = none → pyGet r "uptime_pct" = none →
      pyGet r "uptimePercent" = none → resolveUptimeTmJson r = none) := by
  refine ⟨rfl, rfl, ?_, ?_⟩
  · intro h1 h2 h3
    simp [resolveLatencyTmJson, pyOr, truthyO, h1, h2, h3]
  · intro h1 h2 h3
    simp [resolveUptimeTmJson, pyOr, truthyO, h1, h2, h3]

/-- C5 witness: a record carrying none of the lower-case latency/uptime
aliases resolves both fields to `None` in telemetry.py's JSON path. -/
theorem spec_C5_witness :
    resolveLatencyTmJson [("region", PyVal.vStr "a")] = none ∧
    resolveUptimeTmJson [("region", PyVal.vStr "a")] = none :=
  ⟨(spec_C5_amended [("region", PyVal.vStr "a")]).2.2.1 rfl rfl rfl,
    (spec_C5_amended [("region", PyVal.vStr "a")]).2.2.2 rfl rfl rfl⟩

/-- C10 counterexample: a raw record whose `latency_ms` is exactly 0 (with
the final alias `Latency` also holding 0) is NOT dropped: the Python `or`
chain returns the last falsy value 0, which is not `None`, so the record is
loaded with latency 0 and contributes to its region's summary (the region's
average uptime is 1, not the zero default). -/
theorem spec_C10_counterexample :
    pyLookup zeroLatRecord "latency_ms" = some (PyVal.vNum 0) ∧
    load_records_rows [PyVal.vDict zeroLatRecord] = [⟨"a", 0, 1⟩] ∧
    (regionSummary [⟨"a", 0, 1⟩] 5 "a").avg_uptime = 1 := by
  refine ⟨rfl, by decide, ?_⟩
  have hf : (([⟨"a", 0, 1⟩] : List NormalizedRecord).filter
      (fun r => r.region = "a")) = [⟨"a", 0, 1⟩] := by decide
  simp only [regionSummary, hf]
  norm_num [mean, roundTo, pyRoundInt, Int.floor_eq_iff]

/-- C10 (amended): a falsy value for an earlier alias does fall through to the
remaining aliases, but the record is only dropped when the whole chain
resolves to `None` — all aliases falsy and the last attempted alias absent
(or `None`); in particular a record whose only latency alias is
`latency_ms = 0` is dropped, while a final falsy non-`None` alias value such
as `Latency = 0` is kept. -/
theorem spec_C10_amended (r : RawRecord) (v : PyVal)
    (h1 : pyGet r "latency_ms" = some v) (h2 : truthy v = false) :
    resolveLatencyIdxJson r =
      pyOr (pyOr (pyGet r "latency") (pyGet r "latencyMs")) (pyGet r "Latency") ∧
    (pyGet r "latency" = none → pyGet r "latencyMs" = none →
      pyGet r "Latency" = none → parseRecordIdxJson r = none) := by
  constructor
  · simp [resolveLatencyIdxJson, pyOr, truthyO, h1, h2]
  · intro g1 g2 g3
    have hres : resolveLatencyIdxJson r = none := by
      simp [resolveLatencyIdxJson, pyOr, truthyO, h1, h2, g1, g2, g3]
    exact (fieldFail_iff r).mp (Or.inr (Or.inl hres))

/-- C10 witness: a record whose only latency alias present is
`latency_ms = 0` is dropped by the loader. -/
theorem spec_C10_witness :
    parseRecordIdxJson
      [("region", PyVal.vStr "a"), ("latency_ms", PyVal.vNum 0),
        ("uptime", PyVal.vNum 1)] = none :=
  (spec_C10_amended
    [("region", PyVal.vStr "a"), ("latency_ms", PyVal.vNum 0),
      ("uptime", PyVal.vNum 1)] (PyVal.vNum 0) rfl rfl).2 rfl rfl rfl

/-- C4: a raw record for which some logical field resolves to no value (under
the alias chains of the loop processing it), or whose resolved latency/uptime
does not parse as a number, is dropped silently by all four row loops —
index.py's JSON and CSV loops and telemetry.py's CSV and JSON loops: removing
it from the row list leaves the loaded sequence unchanged (the loops never
fail), and every well-formed record of the same file is still loaded. -/
theorem spec_C4 (r r2 : RawRecord) (h : fieldFail r) (h2 : fieldFailTm r2)
    (rows1 rows2 trows1 trows2 : List PyVal)
    (crows1 crows2 tcrows1 tcrows2 : List RawRecord) :
    load_records_rows (rows1 ++ PyVal.vDict r :: rows2) =
      load_records_rows (rows1 ++ rows2) ∧
    load_records_csvRows (crows1 ++ r :: crows2) =
      load_records_csvRows (crows1 ++ crows2) ∧
    load_records_csvRowsTm (tcrows1 ++ r :: tcrows2) =
      load_records_csvRowsTm (tcrows1 ++ tcrows2) ∧
    load_records_rowsTm (trows1 ++ PyVal.vDict r2 :: trows2) =
      load_records_rowsTm (trows1 ++ trows2) ∧
    (∀ v ∈ rows1 ++ rows2, ∀ nr, jsonRowParse v = some nr →
      nr ∈ load_records_rows (rows1 ++ PyVal.vDict r :: rows2)) ∧
    (∀ s ∈ crows1 ++ crows2, ∀ nr, parseRecordIdxCsv s = some nr →
      nr ∈ load_records_csvRows (crows1 ++ r :: crows2)) ∧
    (∀ s ∈ tcrows1 ++ tcrows2, ∀ nr, parseRecordTmCsv s = some nr →
      nr ∈ load_records_csvRowsTm (tcrows1 ++ r :: tcrows2)) ∧
    (∀ v ∈ trows1 ++ trows2, ∀ nr, jsonRowParseTm v = some nr →
      nr ∈ load_records_rowsTm (trows1 ++ PyVal.vDict r2 :: trows2)) := by
  have hnone : parseRecordIdxJson r = none := (fieldFail_iff r).mp h
  have hnoneJ : jsonRowParse (PyVal.vDict r) = none := hnone
  have hnoneC : parseRecordIdxCsv r = none := hnone
  have hnoneTC : parseRecordTmCsv r = none := hnone
  have hnoneT : parseRecordTmJson r2 = none := (fieldFailTm_iff r2).mp h2
  have hnoneTJ : jsonRowParseTm (PyVal.vDict r2) = none := hnoneT
  refine ⟨filterMap_middle_none _ _ hnoneJ rows1 rows2,
    filterMap_middle_none _ _ hnoneC crows1 crows2,
    filterMap_middle_none _ _ hnoneTC tcrows1 tcrows2,
    filterMap_middle_none _ _ hnoneTJ trows1 trows2, ?_, ?_, ?_, ?_⟩
  · intro v hv nr hnr
    exact mem_filterMap_middle _ _ v rows1 rows2 hv hnr
  · intro s hs nr hnr
    exact mem_filterMap_middle _ _ s crows1 crows2 hs hnr
  · intro s hs nr hnr
    exact mem_filterMap_middle _ _ s tcrows1 tcrows2 hs hnr
  · intro v hv nr hnr
    exact mem_filterMap_middle _ _ v trows1 trows2 hv hnr

/-- C4 witness: a record with no latency alias at all is dropped by both
modules' JSON row loops while the well-formed record after it is still
loaded by each. -/
theorem spec_C4_witness :
    load_records_rows
        [PyVal.vDict [("region", PyVal.vStr "a")],
          PyVal.vDict [("region", PyVal.vStr "b"), ("latency_ms", PyVal.vNum 3),
            ("uptime", PyVal.vNum 1)]] =
      load_records_rows
        [PyVal.vDict [("region", PyVal.vStr "b"), ("latency_ms", PyVal.vNum 3),
          ("uptime", PyVal.vNum 1)]] ∧
    load_records_rowsTm
        [PyVal.vDict [("region", PyVal.vStr "a")],
          PyVal.vDict [("region", PyVal.vStr "b"), ("latency_ms", PyVal.vNum 3),
            ("uptime", PyVal.vNum 1)]] =
      load_records_rowsTm
        [PyVal.vDict [("region", PyVal.vStr "b"), ("latency_ms", PyVal.vNum 3),
          ("uptime", PyVal.vNum 1)]] ∧
    (⟨"b", 3, 1⟩ : NormalizedRecord) ∈ load_records_rows
        [PyVal.vDict [("region", PyVal.vStr "a")],
          PyVal.vDict [("region", PyVal.vStr "b"), ("latency_ms", PyVal.vNum 3),
            ("uptime", PyVal.vNum 1)]] ∧
    (⟨"b", 3, 1⟩ : NormalizedRecord) ∈ load_records_rowsTm
        [PyVal.vDict [("region", PyVal.vStr "a")],
          PyVal.vDict [("region", PyVal.vStr "b"), ("latency_ms", PyVal.vNum 3),
            ("uptime", PyVal.vNum 1)]] := by
  have h := spec_C4 [("region", PyVal.vStr "a")] [("region", PyVal.vStr "a")]
    (Or.inr (Or.inl rfl)) (Or.inr (Or.inl rfl)) []
    [PyVal.vDict [("region", PyVal.vStr "b"), ("latency_ms", PyVal.vNum 3),
      ("uptime", PyVal.vNum 1)]] []
    [PyVal.vDict [("region", PyVal.vStr "b"), ("latency_ms", PyVal.vNum 3),
      ("uptime", PyVal.vNum 1)]] [] [] [] []
  refine ⟨by simpa using h.1, by simpa using h.2.2.2.1, ?_, ?_⟩
  · have hm := h.2.2.2.2.1
      (PyVal.vDict [("region", PyVal.vStr "b"), ("latency_ms", PyVal.vNum 3),
        ("uptime", PyVal.vNum 1)]) (by simp) ⟨"b", 3, 1⟩ (by decide)
    simpa using hm
  · have hm := h.2.2.2.2.2.2.2
      (PyVal.vDict [("region", PyVal.vStr "b"), ("latency_ms", PyVal.vNum 3),
        ("uptime", PyVal.vNum 1)]) (by simp) ⟨"b", 3, 1⟩ (by decide)
    simpa using hm

/-- C2 counterexample: for latencies 100, 200, 301 in one region,
telemetry.py's handler reports `avg_latency = 200.333` — three decimal
places, not the 2-decimal rounding the claim asserts for every region
summary (200.333·100 is not an integer, and differs from the 2-decimal value
200.33). -/
theorem spec_C2_counterexample :
    (regionSummaryTm threeLatRecords 0 "a").avg_latency = 200333 / 1000 ∧
    roundTo 2 (mean [100, 200, 301]) = 20033 / 100 ∧
    ((200333 / 1000 : ℚ) ≠ 20033 / 100) ∧
    (∀ k : ℤ, (regionSummaryTm threeLatRecords 0 "a").avg_latency * 100 ≠ (k : ℚ)) := by
  have hf : threeLatRecords.filter (fun r => r.region = "a") = threeLatRecords := by
    decide
  have h1 : (regionSummaryTm threeLatRecords 0 "a").avg_latency = 200333 / 1000 := by
    simp only [regionSummaryTm, hf, threeLatRecords]
    norm_num [mean, roundTo, pyRoundInt, Int.floor_eq_iff]
  refine ⟨h1, ?_, by norm_num, ?_⟩
  · norm_num [mean, roundTo, pyRoundInt, Int.floor_eq_iff]
  · intro k hk
    rw [h1] at hk
    have hzq : (200333 : ℚ) = k * 10 := by field_simp at hk; linarith
    have hz : (200333 : ℤ) = k * 10 := by exact_mod_cast hzq
    omega

/-- C2 (amended): for every region with at least one matching record,
index.py rounds `avg_latency` and `p95_latency` to 2 decimal places and
`avg_uptime` to 6 (each result is an integer multiple of the corresponding
power of ten), while telemetry.py rounds its latency statistics to 3 decimal
places instead (uptime still to 6). -/
theorem spec_C2_amended (records : List NormalizedRecord) (t : ℚ) (g : String)
    (h : (records.filter (fun r => r.region = g)).isEmpty = false) :
    (regionSummary records t g).avg_latency =
      roundTo 2 (mean ((records.filter (fun r => r.region = g)).map
        (fun r => r.latency_ms))) ∧
    (regionSummary records t g).p95_latency =
      roundTo 2 (p95 ((records.filter (fun r => r.region = g)).map
        (fun r => r.latency_ms))) ∧
    (regionSummary records t g).avg_uptime =
      roundTo 6 (mean ((records.filter (fun r => r.region = g)).map
        (fun r => r.uptime))) ∧
    (∃ k : ℤ, (regionSummary records t g).avg_latency = (k : ℚ) / 10 ^ 2) ∧
    (∃ k : ℤ, (regionSummary records t g).p95_latency = (k : ℚ) / 10 ^ 2) ∧
    (∃ k : ℤ, (regionSummary records t g).avg_uptime = (k : ℚ) / 10 ^ 6) ∧
    (regionSummaryTm records t g).avg_latency =
      roundTo 3 (mean ((records.filter (fun r => r.region = g)).map
        (fun r => r.latency_ms))) ∧
    (regionSummaryTm records t g).p95_latency =
      roundTo 3 (percentile_95 ((records.filter (fun r => r.region = g)).map
        (fun r => r.latency_ms))) ∧
    (regionSummaryTm records t g).avg_uptime =
      roundTo 6 (mean ((records.filter (fun r => r.region = g)).map
        (fun r => r.uptime))) ∧
    (∃ k : ℤ, (regionSummaryTm records t g).avg_latency = (k : ℚ) / 10 ^ 3) := by
  simp only [regionSummary, regionSummaryTm, h, Bool.false_eq_true, if_false]
  refine ⟨trivial, trivial, trivial, ⟨_, rfl⟩, ⟨_, rfl⟩, ⟨_, rfl⟩, trivial, trivial,
    trivial, ⟨_, rfl⟩⟩

/-- C2 witness: the 2-decimal rounding relation at a concrete one-record
region in index.py's handler. -/
theorem spec_C2_witness :
    (regionSummary [⟨"a", 100, 1⟩] 0 "a").avg_latency =
      roundTo 2 (mean ((([⟨"a", 100, 1⟩] : List NormalizedRecord).filter
        (fun r => r.region = "a")).map (fun r => r.latency_ms))) ∧
    (∃ k : ℤ, (regionSummaryTm [⟨"a", 100, 1⟩] 0 "a").avg_latency = (k : ℚ) / 10 ^ 3) :=
  ⟨(spec_C2_amended [⟨"a", 100, 1⟩] 0 "a" (by decide)).1,
    (spec_C2_amended [⟨"a", 100, 1⟩] 0 "a" (by decide)).2.2.2.2.2.2.2.2.2⟩

lemma interp_index_bounds {s : List ℚ} (hsort : List.Sorted (· ≤ ·) s) {i j : ℕ}
    (hij : i ≤ j) (hj : j < s.length) {f : ℚ} (hf0 : 0 ≤ f) (hf1 : f ≤ 1) :
    s.getD 0 0 ≤ s.getD i 0 + (s.getD j 0 - s.getD i 0) * f ∧
    s.getD i 0 + (s.getD j 0 - s.getD i 0) * f ≤ s.getD (s.length - 1) 0 := by
  have hab := sorted_getD_le_getD hsort hij hj
  have h0i := sorted_getD_le_getD hsort (Nat.zero_le i) (lt_of_le_of_lt hij hj)
  have hjl := sorted_getD_le_getD hsort (by omega : j ≤ s.length - 1)
    (by omega : s.length - 1 < s.length)
  have hmid := interp_between hab hf0 hf1
  exact ⟨le_trans h0i hmid.1, le_trans hmid.2 hjl⟩

lemma p95_bounds (vals : List ℚ) (h : vals ≠ []) :
    (vals.insertionSort (· ≤ ·)).getD 0 0 ≤ p95 vals ∧
    p95 vals ≤ (vals.insertionSort (· ≤ ·)).getD
      ((vals.insertionSort (· ≤ ·)).length - 1) 0 := by
  have hie : vals.isEmpty = false := by
    cases vals with
    | nil => exact absurd rfl h
    | cons a t => rfl
  have hsort : List.Sorted (· ≤ ·) (vals.insertionSort (· ≤ ·)) :=
    List.sorted_insertionSort _ vals
  have hlen : (vals.insertionSort (· ≤ ·)).length = vals.length :=
    (List.perm_insertionSort _ vals).length_eq
  have hpos : 0 < (vals.insertionSort (· ≤ ·)).length := by
    rw [hlen]
    exact List.length_pos.mpr h
  simp only [p95, hie, Bool.false_eq_true, if_false]
  by_cases h1 : (vals.insertionSort (· ≤ ·)).length = 1
  · rw [if_pos h1, headI_eq_getD (by rw [← List.length_pos]; omega), h1]
    exact ⟨le_refl _, le_refl _⟩
  · rw [if_neg h1]
    set n := (vals.insertionSort (· ≤ ·)).length with hn
    have hn2 : 2 ≤ n := by omega
    set pos : ℚ := ((n - 1 : ℕ) : ℚ) * (95 / 100) with hposdef
    have hpos0 : 0 ≤ pos := by positivity
    have hposle : pos ≤ ((n - 1 : ℕ) : ℚ) := by
      rw [hposdef]
      nlinarith [Nat.cast_nonneg (α := ℚ) (n - 1)]
    have hceil : ⌈pos⌉ ≤ (n : ℤ) - 1 := by
      rw [Int.ceil_le]
      push_cast
      have : ((n - 1 : ℕ) : ℚ) = (n : ℚ) - 1 := by
        push_cast [Nat.cast_sub (by omega : 1 ≤ n)]
        ring
      linarith [hposle, this]
    have hclamp : ¬ ((n : ℤ) ≤ ⌈pos⌉) := by omega
    rw [if_neg hclamp]
    have hlole : ⌊pos⌋ ≤ ⌈pos⌉ := Int.floor_le_ceil pos
    have hlo0 : 0 ≤ ⌊pos⌋ := Int.floor_nonneg.mpr hpos0
    have hij : ⌊pos⌋.toNat ≤ ⌈pos⌉.toNat := Int.toNat_le_toNat hlole
    have hj : ⌈pos⌉.toNat < n := by omega
    have hf0 : 0 ≤ pos - (⌊pos⌋ : ℚ) := sub_nonneg.mpr (Int.floor_le pos)
    have hf1 : pos - (⌊pos⌋ : ℚ) ≤ 1 := by
      have := Int.lt_floor_add_one pos
      linarith
    exact interp_index_bounds hsort hij hj hf0 hf1

lemma percentile_95_bounds (vals : List ℚ) (h : vals ≠ []) :
    (vals.insertionSort (· ≤ ·)).getD 0 0 ≤ percentile_95 vals ∧
    percentile_95 vals ≤ (vals.insertionSort (· ≤ ·)).getD
      ((vals.insertionSort (· ≤ ·)).length - 1) 0 := by
  have hie : vals.isEmpty = false := by
    cases vals with
    | nil => exact absurd rfl h
    | cons a t => rfl
  have hsort : List.Sorted (· ≤ ·) (vals.insertionSort (· ≤ ·)) :=
    List.sorted_insertionSort _ vals
  have hpos : 0 < (vals.insertionSort (· ≤ ·)).length := by
    rw [(List.perm_insertionSort _ vals).length_eq]
    exact List.length_pos.mpr h
  simp only [percentile_95, hie, Bool.false_eq_true, if_false]
  set n := (vals.insertionSort (· ≤ ·)).length with hn
  set idx : ℤ := max 0 (min ((n : ℤ) - 1) (⌈(95 / 100 : ℚ) * (n : ℚ)⌉ - 1)) with hidx
  have hidx0 : 0 ≤ idx := le_max_left _ _
  have hidxle : idx ≤ (n : ℤ) - 1 := by
    rw [hidx]
    apply max_le
    · omega
    · exact min_le_left _ _
  have hlt : idx.toNat < n := by omega
  have hle : idx.toNat ≤ n - 1 := by omega
  constructor
  · exact sorted_getD_le_getD hsort (Nat.zero_le _) hlt
  · exact sorted_getD_le_getD hsort hle (by omega)

lemma p95_singleton (x : ℚ) : p95 [x] = x := by
  simp [p95, List.insertionSort, List.orderedInsert]

lemma percentile_95_singleton (x : ℚ) : percentile_95 [x] = x := by
  have hc : ⌈(95 / 100 : ℚ) * ((1 : ℕ) : ℚ)⌉ = 1 := by
    norm_num [Int.ceil_eq_iff]
  simp [percentile_95, List.insertionSort, List.orderedInsert, hc]

/-- C9: for every non-empty value list, both percentile implementations stay
within the closed interval between the minimum and the maximum of the list,
and both return exactly `x` on the singleton `[x]`. -/
theorem spec_C9 (vals : List ℚ) (h : vals ≠ []) (x : ℚ) :
    (∃ m, m ∈ vals ∧ (∀ y ∈ vals, m ≤ y) ∧ m ≤ p95 vals ∧ m ≤ percentile_95 vals) ∧
    (∃ M, M ∈ vals ∧ (∀ y ∈ vals, y ≤ M) ∧ p95 vals ≤ M ∧ percentile_95 vals ≤ M) ∧
    p95 [x] = x ∧ percentile_95 [x] = x := by
  have hsort : List.Sorted (· ≤ ·) (vals.insertionSort (· ≤ ·)) :=
    List.sorted_insertionSort _ vals
  have hperm := List.perm_insertionSort (· ≤ ·) vals
  have hpos : 0 < (vals.insertionSort (· ≤ ·)).length := by
    rw [hperm.length_eq]
    exact List.length_pos.mpr h
  have hmmem : (vals.insertionSort (· ≤ ·)).getD 0 0 ∈ vals :=
    hperm.mem_iff.mp (getD_mem hpos)
  have hMmem : (vals.insertionSort (· ≤ ·)).getD
      ((vals.insertionSort (· ≤ ·)).length - 1) 0 ∈ vals :=
    hperm.mem_iff.mp (getD_mem (by omega))
  have hml : ∀ y ∈ vals, (vals.insertionSort (· ≤ ·)).getD 0 0 ≤ y := by
    intro y hy
    obtain ⟨i, hi, rfl⟩ := List.mem_iff_getElem.mp (hperm.mem_iff.mpr hy)
    rw [← List.getD_eq_getElem _ 0 hi]
    exact sorted_getD_le_getD hsort (Nat.zero_le i) hi
  have hMu : ∀ y ∈ vals, y ≤ (vals.insertionSort (· ≤ ·)).getD
      ((vals.insertionSort (· ≤ ·)).length - 1) 0 := by
    intro y hy
    obtain ⟨i, hi, rfl⟩ := List.mem_iff_getElem.mp (hperm.mem_iff.mpr hy)
    rw [← List.getD_eq_getElem _ 0 hi]
    exact sorted_getD_le_getD hsort (by omega) (by omega)
  exact ⟨⟨_, hmmem, hml, (p95_bounds vals h).1, (percentile_95_bounds vals h).1⟩,
    ⟨_, hMmem, hMu, (p95_bounds vals h).2, (percentile_95_bounds vals h).2⟩,
    p95_singleton x, percentile_95_singleton x⟩

/-- C9 witness: the bounds at the concrete list `[3, 1, 2]` and the singleton
law at `7`. -/
theorem spec_C9_witness :
    (∃ m, m ∈ [(3 : ℚ), 1, 2] ∧ (∀ y ∈ [(3 : ℚ), 1, 2], m ≤ y) ∧ m ≤ p95 [3, 1, 2] ∧
      m ≤ percentile_95 [3, 1, 2]) ∧
    (∃ M, M ∈ [(3 : ℚ), 1, 2] ∧ (∀ y ∈ [(3 : ℚ), 1, 2], y ≤ M) ∧ p95 [3, 1, 2] ≤ M ∧
      percentile_95 [3, 1, 2] ≤ M) ∧
    p95 [(7 : ℚ)] = 7 ∧ percentile_95 [(7 : ℚ)] = 7 :=
  spec_C9 [3, 1, 2] (by decide) 7

lemma p95_eq_p95_spec (vals : List ℚ) (h : vals ≠ []) : p95 vals = p95_spec vals := by
  have hie : vals.isEmpty = false := by
    cases vals with
    | nil => exact absurd rfl h
    | cons a t => rfl
  have hpos : 0 < (vals.insertionSort (· ≤ ·)).length := by
    rw [(List.perm_insertionSort _ vals).length_eq]
    exact List.length_pos.mpr h
  simp only [p95, p95_spec, hie, Bool.false_eq_true, if_false]
  by_cases h1 : (vals.insertionSort (· ≤ ·)).length = 1
  · rw [if_pos h1, if_pos h1]
  · rw [if_neg h1, if_neg h1]
    set n := (vals.insertionSort (· ≤ ·)).length with hn
    set pos : ℚ := ((n - 1 : ℕ) : ℚ) * (95 / 100) with hposdef
    have hposle : pos ≤ ((n - 1 : ℕ) : ℚ) := by
      rw [hposdef]
      nlinarith [Nat.cast_nonneg (α := ℚ) (n - 1)]
    have hceil : ⌈pos⌉ ≤ (n : ℤ) - 1 := by
      rw [Int.ceil_le]
      push_cast
      have hc : ((n - 1 : ℕ) : ℚ) = (n : ℚ) - 1 := by
        push_cast [Nat.cast_sub (by omega : 1 ≤ n)]
        ring
      linarith [hposle, hc]
    have hclamp : ¬ ((n : ℤ) ≤ ⌈pos⌉) := by omega
    rw [if_neg hclamp, min_eq_right hceil]

/-- C1 counterexample: for latencies 100, 200, 300 in one region,
telemetry.py's handler reports `p95_latency = 300` (nearest rank) while the
interpolated method the claim names as the contract yields 290 — so the
interpolated method is not the contract for every region summary. -/
theorem spec_C1_counterexample :
    (regionSummaryTm threeLatRecords300 150 "a").p95_latency = 300 ∧
    roundTo 2 (p95_spec ((threeLatRecords300.filter (fun r => r.region = "a")).map
      (fun r => r.latency_ms))) = 290 ∧
    ((300 : ℚ) ≠ 290) := by
  have hf : threeLatRecords300.filter (fun r => r.region = "a") = threeLatRecords300 := by
    decide
  have hc2 : ⌈(19 : ℚ) / 10⌉ = 2 := by norm_num [Int.ceil_eq_iff]
  have hc3 : ⌈(57 : ℚ) / 20⌉ = 3 := by norm_num [Int.ceil_eq_iff]
  have ht : Int.toNat 2 = 2 := rfl
  refine ⟨?_, ?_, by norm_num⟩
  · simp only [regionSummaryTm, hf, threeLatRecords300]
    norm_num [percentile_95, List.insertionSort, List.orderedInsert, roundTo,
      pyRoundInt, Int.floor_eq_iff, hc3, ht]
  · rw [hf]
    simp only [threeLatRecords300]
    norm_num [p95_spec, List.insertionSort, List.orderedInsert, roundTo,
      pyRoundInt, Int.floor_eq_iff, hc2, ht]

/-- C1 (amended): index.py's `p95` agrees exactly with the spec's
interpolated-percentile formula on every non-empty latency list and its
handler rounds that value to 2 decimals, while telemetry.py's handler instead
reports the nearest-rank percentile rounded to 3 decimals. -/
theorem spec_C1_amended (records : List NormalizedRecord) (t : ℚ) (g : String)
    (h : (records.filter (fun r => r.region = g)).isEmpty = false) :
    p95 ((records.filter (fun r => r.region = g)).map (fun r => r.latency_ms)) =
      p95_spec ((records.filter (fun r => r.region = g)).map (fun r => r.latency_ms)) ∧
    (regionSummary records t g).p95_latency =
      roundTo 2 (p95_spec ((records.filter (fun r => r.region = g)).map
        (fun r => r.latency_ms))) ∧
    (regionSummaryTm records t g).p95_latency =
      roundTo 3 (percentile_95 ((records.filter (fun r => r.region = g)).map
        (fun r => r.latency_ms))) := by
  have hne : (records.filter (fun r => r.region = g)).map (fun r => r.latency_ms) ≠ [] := by
    intro hmap
    rw [List.map_eq_nil_iff] at hmap
    rw [hmap] at h
    cases h
  have heq := p95_eq_p95_spec _ hne
  refine ⟨heq, ?_, ?_⟩
  · simp only [regionSummary, h, Bool.false_eq_true, if_false]
    rw [heq]
  · simp only [regionSummaryTm, h, Bool.false_eq_true, if_false]

/-- C1 witness: the source `p95` and the spec formula agree at a concrete
one-record region. -/
theorem spec_C1_witness :
    p95 ((([⟨"a", 5, 1⟩] : List NormalizedRecord).filter
        (fun r => r.region = "a")).map (fun r => r.latency_ms)) =
      p95_spec ((([⟨"a", 5, 1⟩] : List NormalizedRecord).filter
        (fun r => r.region = "a")).map (fun r => r.latency_ms)) :=
  (spec_C1_amended [⟨"a", 5, 1⟩] 0 "a" (by decide)).1
